import Mathlib

/-!
Verification of the breakfast-embed sentence-indexed ANN store.

Shallow embedding of the Rust sources:
  * src/types.rs        — Point (fixed 1536-dimension vector), requests, responses
  * src/utils.rs        — search_closest_points, insert_if_needed, process_sentence,
                          process_sentence_with_label, try_find_in_sqlite,
                          try_find_label_in_sqlite
  * src/store/main.rs   — the store service handlers (search, init, update, wipe,
                          flush, load, embed_search_insert, embed_label_search_insert)
  * src/main.rs         — the legacy service with the distance-gated
                          embed_search_insert handler (namespace Legacy below)

Modelling conventions.
  * f32 values are modelled as rationals.  Every concrete input used in a
    counterexample or witness uses values (0, 1) on which f32 arithmetic is exact,
    so the rational model agrees with the Rust computation there.
  * The source computes the Euclidean distance sqrt (sum (a_i - b_i)^2) and
    compares it with the literal threshold 0.002.  Since sqrt is strictly
    monotone on nonnegative reals, carrying the squared distance and comparing
    with the squared threshold 0.002^2 preserves the order of every comparison
    and the result of the insertion gate; the model therefore carries squared
    distances throughout (Point.distanceSq, INSERT_THRESHOLD_SQ).
  * A Rust panic (copy_from_slice length mismatch, .unwrap() of a None/Err,
    indexing out of bounds) is modelled as the Option value none.
  * The HNSW graph is treated as the opaque module of the instant-distance
    crate surface actually used by the code: build, insert, k-nearest search
    (returned in ascending distance, ties broken by insertion order — a stable
    sort over the entries), and the entry count map.values.len().
  * The sqlite tables are association lists keyed by sentence; a plain INSERT
    on a PRIMARY KEY column fails when the key is already present.
  * Lock acquisition and release, sqlite reads/writes and embedding-provider
    calls are additionally recorded as an event trace so that lock-discipline
    claims can be stated.
-/

namespace BreakfastEmbed

/-- Embedding dimension: the Point type in src/types.rs is [f32; 1536]. -/
def D : Nat := 1536

/-- Point = [f32; 1536]: a fixed-dimension vector (src/types.rs). -/
abbrev Point := { l : List ℚ // l.length = D }

/-- Point::from_slice (src/types.rs lines 10-14): copies a slice into a
fixed-size array; copy_from_slice panics (modelled none) unless the slice
has exactly D elements. -/
def Point.from_slice (slice : List ℚ) : Option Point :=
  if h : slice.length = D then some ⟨slice, h⟩ else none

/-- Deserialize for Point (src/types.rs lines 95-103): deserializes a
[f32; 1536]; serde fails (modelled none) unless the sequence has exactly
D elements. -/
def Point.deserialize (floats : List ℚ) : Option Point :=
  if h : floats.length = D then some ⟨floats, h⟩ else none

/-- Squared Euclidean distance.  The source (src/types.rs lines 24-31)
computes sqrt of this sum; the model carries the square (see the header:
sqrt is strictly monotone, so every comparison made by the code has the
same outcome on squared distances and squared thresholds). -/
def Point.distanceSq (a b : Point) : ℚ :=
  (List.zipWith (fun x y => (x - y) ^ 2) a.val b.val).sum

/-- Square of the literal insertion threshold 0.002 of src/main.rs line 328. -/
def INSERT_THRESHOLD_SQ : ℚ := (2 / 1000) ^ 2

/-- HnswMap of the instant-distance crate as the code uses it: the stored
points and the parallel payload list values (the code reads
map.values.len() for the entry count and clears map.values in /wipe). -/
structure HnswMap where
  points : List Point
  values : List String
deriving DecidableEq

/-- Builder::default().build(points, values): a fresh index holding the
given entries. -/
def HnswMap.build (points : List Point) (values : List String) : HnswMap :=
  ⟨points, values⟩

/-- HnswMap::insert(point, value): appends one entry. -/
def HnswMap.insert (m : HnswMap) (p : Point) (v : String) : HnswMap :=
  ⟨m.points ++ [p], m.values ++ [v]⟩

/-- Stable insertion of one (value, distance) pair into a list sorted by
ascending distance: an element with an equal distance stays in front of the
inserted one (ties break by insertion order). -/
def insertByDist (x : String × ℚ) : List (String × ℚ) → List (String × ℚ)
  | [] => [x]
  | y :: ys => if y.2 ≤ x.2 then y :: insertByDist x ys else x :: y :: ys

/-- Stable sort by ascending distance (the deterministic order of the ANN
module's search iterator: ascending distance, ties by insertion order). -/
def sortByDist (l : List (String × ℚ)) : List (String × ℚ) :=
  l.foldl (fun acc x => insertByDist x acc) []

/-- HnswMap::search(query, search): the full result iterator, every entry as
(value, squared distance to the query), in ascending distance with ties in
insertion order.  Callers cap it with take k. -/
def HnswMap.searchAll (m : HnswMap) (q : Point) : List (String × ℚ) :=
  sortByDist ((m.points.zip m.values).map fun pv => (pv.2, pv.1.distanceSq q))

/-- MyResponse (src/types.rs lines 34-40). -/
structure MyResponse where
  search_result : List String
  search_distance : List ℚ
  insertion : String
deriving DecidableEq

/-- MyLabelledResponse (used by src/utils.rs): MyResponse plus the labels list. -/
structure MyLabelledResponse where
  search_result : List String
  search_distance : List ℚ
  insertion : String
  labels : List String
deriving DecidableEq

/-- Request (src/types.rs lines 43-47). -/
structure Request where
  sentences : List String
  vectors : List (List ℚ)
deriving DecidableEq

/-- EmbedRequest (src/types.rs lines 50-53). -/
structure EmbedRequest where
  sentences : List String
deriving DecidableEq

/-- EmbedLabelRequest (used by src/store/main.rs embed_label_search_insert):
parallel sentence and label lists. -/
structure EmbedLabelRequest where
  sentences : List String
  labels : List String
deriving DecidableEq

/-- One sqlite table: rows keyed by sentence (TEXT PRIMARY KEY), the value
already parsed.  SELECT is List.lookup (the first matching row). -/
def Table (α : Type) : Type := List (String × α)

/-- Plain INSERT INTO a PRIMARY-KEY table: fails (constraint violation,
modelled none) when the key is already present, else appends the row. -/
def sqliteInsert {α : Type} (tbl : List (String × α)) (k : String) (v : α) :
    Option (List (String × α)) :=
  if (tbl.lookup k).isSome then none else some (tbl ++ [(k, v)])

/-- The sqlite connection: key_value_store (sentence → stored Vec<Vec<f32>>,
in practice the one-element [[embedding]]) and key_label_store
(sentence → label), as created in src/store/main.rs lines 312-329. -/
structure Connection where
  key_value_store : List (String × List (List ℚ))
  key_label_store : List (String × String)
deriving DecidableEq

/-- The whole store service state: the shared in-memory map and connection of
AppState (src/store/main.rs lines 22-25) plus the parsed content of the
HNSW_PATH snapshot file (none models a missing or unparseable file). -/
structure ServerState where
  arc_mutex_map : HnswMap
  arc_conn : Connection
  hnsw_file : Option HnswMap
deriving DecidableEq

/-- Observable events of one request: lock operations on the two mutexes,
sqlite reads and writes, and calls of the embedding provider.  One storeRead
is recorded per call of a try_find helper (each such call runs its SELECTs
under the store lock). -/
inductive Event where
  | lockStore
  | unlockStore
  | lockIndex
  | unlockIndex
  | storeRead
  | storeWrite
  | embedCall
deriving DecidableEq

/-- Whether some embedCall of the trace happens while the store lock is held
(the running count of lockStore minus unlockStore before it is positive). -/
def storeHeldAcrossEmbedAux : List Event → Nat → Bool
  | [], _ => false
  | Event.lockStore :: es, d => storeHeldAcrossEmbedAux es (d + 1)
  | Event.unlockStore :: es, d => storeHeldAcrossEmbedAux es (d - 1)
  | Event.embedCall :: es, d => decide (0 < d) || storeHeldAcrossEmbedAux es d
  | _ :: es, d => storeHeldAcrossEmbedAux es d

/-- Whether the trace holds the store lock across some embedding call. -/
def storeHeldAcrossEmbed (tr : List Event) : Bool :=
  storeHeldAcrossEmbedAux tr 0

/-- try_find_in_sqlite (src/utils.rs lines 300-327): SELECT value FROM
key_value_store WHERE key = sentence; on a row, parse it as Vec<Vec<f32>>
and return a MyResponse whose search_distance is vector[0] (the stored
values are always the one-element list [embedding], written by the
write-back). -/
def try_find_in_sqlite (kv : List (String × List (List ℚ))) (sentence : String) :
    Option MyResponse :=
  (kv.lookup sentence).map fun vector =>
    { search_result := []
      search_distance := vector.headD []
      insertion := "found in sqlite" }

/-- try_find_label_in_sqlite (src/utils.rs lines 330-371): SELECT the label
row and the value row for the sentence; return none when no label row
exists, else the labels list and the parsed vector[0] as search_distance. -/
def try_find_label_in_sqlite (conn : Connection) (sentence : String) :
    Option MyLabelledResponse :=
  let labels : List String :=
    match conn.key_label_store.lookup sentence with
    | some label => [label]
    | none => []
  let search_distance : List ℚ :=
    match conn.key_value_store.lookup sentence with
    | some vector => vector.headD []
    | none => []
  if labels.length = 0 then none
  else some
    { search_result := []
      search_distance := search_distance
      insertion := "found in sqlite"
      labels := labels }

/-- search_closest_points (src/utils.rs lines 62-94): build a Point from the
raw vector (panic: none), lock the map, bootstrap-build it from the whole
structured request when it is empty, then return the first 15 search
results as (value, distance) together with the possibly rebuilt map. -/
def search_closest_points (map0 : HnswMap) (vector : List ℚ)
    (structured_request : Request) :
    Option (List (String × ℚ) × HnswMap) :=
  (Point.from_slice vector).bind fun point =>
    (if map0.values.length = 0 then
        (structured_request.vectors.mapM Point.from_slice).map fun pts =>
          HnswMap.build pts structured_request.sentences
      else some map0).map fun map1 =>
      ((map1.searchAll point).take 15, map1)

/-- insert_if_needed (src/utils.rs lines 96-105): lock the map and insert the
(vector, sentence) pair unconditionally, returning the string success
(the callers discard it). -/
def insert_if_needed (map0 : HnswMap) (vector : List ℚ) (sentence : String) :
    Option (HnswMap × String) :=
  (Point.from_slice vector).map fun p => (map0.insert p sentence, "success")

/-- process_sentence (src/utils.rs lines 208-298).  Takes the store lock for
the whole call.  Cache hit: search with the stored vector and answer
"already exists".  Cache miss: embed, write back to key_value_store when
should_insert, search, insert into the map when should_insert, answer
"inserted".  Returns the response, the new state and the event trace. -/
def process_sentence (embedF : String → List ℚ) (sentence : String)
    (data : ServerState) (should_insert : Bool) :
    Option (MyResponse × ServerState × List Event) :=
  match try_find_in_sqlite data.arc_conn.key_value_store sentence with
  | some result =>
    let structured_request : Request :=
      { vectors := [result.search_distance], sentences := [sentence] }
    (search_closest_points data.arc_mutex_map result.search_distance
        structured_request).map fun scp =>
      ({ search_result := scp.1.map Prod.fst
         search_distance := scp.1.map Prod.snd
         insertion := "already exists" },
       { data with arc_mutex_map := scp.2 },
       [Event.lockStore, Event.storeRead, Event.lockIndex, Event.unlockIndex,
        Event.unlockStore])
  | none =>
    let embedding := embedF sentence
    let vectors : List (List ℚ) := [embedding]
    (if should_insert then
        sqliteInsert data.arc_conn.key_value_store sentence vectors
      else some data.arc_conn.key_value_store).bind fun kv1 =>
      let structured_request : Request :=
        { vectors := vectors, sentences := [sentence] }
      (search_closest_points data.arc_mutex_map embedding
          structured_request).bind fun scp =>
        (if should_insert then
            (insert_if_needed scp.2 embedding sentence).map Prod.fst
          else some scp.2).map fun map2 =>
          ({ search_result := scp.1.map Prod.fst
             search_distance := scp.1.map Prod.snd
             insertion := "inserted" },
           { data with
               arc_mutex_map := map2
               arc_conn := { data.arc_conn with key_value_store := kv1 } },
           [Event.lockStore, Event.storeRead, Event.embedCall]
             ++ (if should_insert then [Event.storeWrite] else [])
             ++ [Event.lockIndex, Event.unlockIndex]
             ++ (if should_insert then [Event.lockIndex, Event.unlockIndex] else [])
             ++ [Event.unlockStore])

/-- process_sentence_with_label (src/utils.rs lines 107-206).  Same shape as
process_sentence with the label table: hit when a label row exists; on a
miss and should_insert, INSERT the label row then the value row; after the
search, look up the label of every returned payload in the updated store
and concatenate them. -/
def process_sentence_with_label (embedF : String → List ℚ)
    (sentence label : String) (data : ServerState) (should_insert : Bool) :
    Option (MyLabelledResponse × ServerState × List Event) :=
  match try_find_label_in_sqlite data.arc_conn sentence with
  | some result =>
    let structured_request : Request :=
      { vectors := [result.search_distance], sentences := [sentence] }
    (search_closest_points data.arc_mutex_map result.search_distance
        structured_request).map fun scp =>
      ({ search_result := scp.1.map Prod.fst
         search_distance := scp.1.map Prod.snd
         insertion := "already exists"
         labels := result.labels },
       { data with arc_mutex_map := scp.2 },
       [Event.lockStore, Event.storeRead, Event.lockIndex, Event.unlockIndex,
        Event.unlockStore])
  | none =>
    let embedding := embedF sentence
    let vectors : List (List ℚ) := [embedding]
    (if should_insert then
        (sqliteInsert data.arc_conn.key_label_store sentence label).bind
          fun lbl1 =>
            (sqliteInsert data.arc_conn.key_value_store sentence vectors).map
              fun kv1 => (⟨kv1, lbl1⟩ : Connection)
      else some data.arc_conn).bind fun conn1 =>
      let structured_request : Request :=
        { vectors := vectors, sentences := [sentence] }
      (search_closest_points data.arc_mutex_map embedding
          structured_request).bind fun scp =>
        (if should_insert then
            (insert_if_needed scp.2 embedding sentence).map Prod.fst
          else some scp.2).map fun map2 =>
          let labels : List String :=
            scp.1.foldl (fun acc cp =>
              match try_find_label_in_sqlite conn1 cp.1 with
              | some r => acc ++ r.labels
              | none => acc) []
          ({ search_result := scp.1.map Prod.fst
             search_distance := scp.1.map Prod.snd
             insertion := "inserted"
             labels := labels },
           { data with arc_mutex_map := map2, arc_conn := conn1 },
           [Event.lockStore, Event.storeRead, Event.embedCall]
             ++ (if should_insert then [Event.storeWrite, Event.storeWrite] else [])
             ++ [Event.lockIndex, Event.unlockIndex]
             ++ (if should_insert then [Event.lockIndex, Event.unlockIndex] else [])
             ++ scp.1.map (fun _ => Event.storeRead)
             ++ [Event.unlockStore])

/-- str::starts_with of Rust, on character lists: whether the second list
begins with the first. -/
def strStartsWith : List Char → List Char → Bool
  | [], _ => true
  | _ :: _, [] => false
  | p :: ps, c :: cs => p == c && strStartsWith ps cs

/-- The should_insert decision of src/store/main.rs lines 217-218 and
249-250: query_str.starts_with of the literal should_insert, on the raw
query string. -/
def should_insert_query_params (query_str : List Char) : Bool :=
  strStartsWith ("should_insert".toList) query_str

/-- The /search handler (src/store/main.rs lines 104-119) on an
already-parsed body.  It takes the single nearest search result with
.next().unwrap(): on an empty result iterator the unwrap panics
(modelled none); otherwise the 200 body is the payload and a newline. -/
def search (floats : List ℚ) (data : ServerState) : Option String :=
  (Point.from_slice floats).bind fun point =>
    match data.arc_mutex_map.searchAll point with
    | [] => none
    | closest_point :: _ => some (closest_point.1 ++ "\n")

/-- The /init handler (src/store/main.rs lines 122-147) on a parsed Request:
replace the map by a fresh build of the request pairs; the sqlite
connection and the snapshot file are not touched.  A some result is the
200 response echoing the request body. -/
def init (req : Request) (data : ServerState) : Option ServerState :=
  (req.vectors.mapM Point.from_slice).map fun points =>
    { data with arc_mutex_map := HnswMap.build points req.sentences }

/-- The /update handler (src/store/main.rs lines 149-172) on a parsed
Request: insert every pair of the zip of vectors and sentences (a length
mismatch is not rejected: the zip silently caps at the shorter list); the
sqlite connection and the snapshot file are not touched. -/
def update (req : Request) (data : ServerState) : Option ServerState :=
  ((req.vectors.zip req.sentences).foldlM (fun m vs =>
      (Point.from_slice vs.1).map fun p => m.insert p vs.2)
    data.arc_mutex_map).map fun map2 =>
    { data with arc_mutex_map := map2 }

/-- The /flush handler (src/store/main.rs lines 28-40): serialize the map to
the HNSW_PATH file. -/
def flush (data : ServerState) : ServerState :=
  { data with hnsw_file := some data.arc_mutex_map }

/-- The /load handler (src/store/main.rs lines 43-53): read the map back from
the HNSW_PATH file; File::open and the parse are unwrapped, so a missing
or unparseable file panics (modelled none). -/
def load (data : ServerState) : Option ServerState :=
  data.hnsw_file.map fun m => { data with arc_mutex_map := m }

/-- The /wipe handler (src/store/main.rs lines 56-101): clear map.values,
write the map to the snapshot file and re-read it, then drop and recreate
both sqlite tables. -/
def wipe (data : ServerState) : ServerState :=
  let cleared : HnswMap := { data.arc_mutex_map with values := [] }
  { arc_mutex_map := cleared
    arc_conn := { key_value_store := [], key_label_store := [] }
    hnsw_file := some cleared }

/-- The /embed_search_insert handler (src/store/main.rs lines 208-238):
decide should_insert from the query string, then run process_sentence per
sentence sequentially, short-circuiting on the first error (500, modelled
none).  A some result is the 200 response carrying the response list. -/
def embed_search_insert (embedF : String → List ℚ) (query_str : List Char)
    (req : EmbedRequest) (data : ServerState) :
    Option (List MyResponse × ServerState) :=
  let should_insert := should_insert_query_params query_str
  req.sentences.foldlM (fun acc sentence =>
      (process_sentence embedF sentence acc.2 should_insert).map fun r =>
        (acc.1 ++ [r.1], r.2.1))
    (([] : List MyResponse), data)

/-- The /embed_label_search_insert handler (src/store/main.rs lines 240-278):
same as embed_search_insert over the zip of sentences and labels (a length
mismatch is not rejected: the zip silently caps at the shorter list). -/
def embed_label_search_insert (embedF : String → List ℚ)
    (query_str : List Char) (req : EmbedLabelRequest) (data : ServerState) :
    Option (List MyLabelledResponse × ServerState) :=
  let should_insert := should_insert_query_params query_str
  (req.sentences.zip req.labels).foldlM (fun acc sl =>
      (process_sentence_with_label embedF sl.1 sl.2 acc.2 should_insert).map
        fun r => (acc.1 ++ [r.1], r.2.1))
    (([] : List MyLabelledResponse), data)

namespace Legacy

/-- The legacy service state (src/main.rs lines 24-28): the shared map, the
bloom filter (modelled by the set of added keys) and the sqlite
key_value_store (the legacy schema has no label table). -/
structure MainAppState where
  arc_mutex_map : HnswMap
  bloom : List String
  key_value_store : List (String × List (List ℚ))
deriving DecidableEq

/-- One iteration of the per-sentence loop of the legacy embed_search_insert
handler (src/main.rs lines 223-361).  Cache hit: answer "found in sqlite"
with empty lists.  Miss: update the bloom filter, embed, INSERT the value
row (unconditionally — this revision has no should_insert flag), then
either bootstrap-build an empty map (answer "success" with empty lists) or
search the top 5 and insert only when the closest distance exceeds the
threshold ("success"), else leave the map unchanged ("no insert"). -/
def embed_search_insert_step (embedF : String → List ℚ) (sentence : String)
    (req_sentences : List String) (st : MainAppState) :
    Option (MyResponse × MainAppState) :=
  match st.key_value_store.lookup sentence with
  | some _ =>
    some ({ search_result := [], search_distance := []
            insertion := "found in sqlite" }, st)
  | none =>
    let bloom1 :=
      if st.bloom.contains sentence then st.bloom else st.bloom ++ [sentence]
    let vectors : List (List ℚ) := [embedF sentence]
    (sqliteInsert st.key_value_store sentence vectors).bind fun kv1 =>
      (Point.from_slice (vectors.headD [])).bind fun point =>
        if st.arc_mutex_map.values.length = 0 then
          (vectors.mapM Point.from_slice).map fun pts =>
            ({ search_result := [], search_distance := []
               insertion := "success" },
             { arc_mutex_map := HnswMap.build pts req_sentences
               bloom := bloom1, key_value_store := kv1 })
        else
          match (st.arc_mutex_map.searchAll point).take 5 with
          | [] => none
          | c0 :: rest =>
            let closest_points := c0 :: rest
            if INSERT_THRESHOLD_SQ < c0.2 then
              some ({ search_result := closest_points.map Prod.fst
                      search_distance := closest_points.map Prod.snd
                      insertion := "success" },
                    { arc_mutex_map := st.arc_mutex_map.insert point sentence
                      bloom := bloom1, key_value_store := kv1 })
            else
              some ({ search_result := closest_points.map Prod.fst
                      search_distance := closest_points.map Prod.snd
                      insertion := "no insert" },
                    { arc_mutex_map := st.arc_mutex_map
                      bloom := bloom1, key_value_store := kv1 })

end Legacy

/-! Helper lemmas and concrete fixtures. -/

/-- Length-D all-zero vector: the value 0 is exactly representable in f32, so
the rational model agrees with the Rust computation on it. -/
def qv0 : List ℚ := List.replicate D 0

theorem qv0_length : qv0.length = D := by
  simp only [qv0, List.length_replicate]

/-- The Point built from qv0. -/
def pt0 : Point := ⟨qv0, qv0_length⟩

theorem from_slice_qv0 : Point.from_slice qv0 = some pt0 := by
  simp only [Point.from_slice]
  rw [dif_pos qv0_length]
  rfl

theorem distanceSq_pt0 : Point.distanceSq pt0 pt0 = 0 := by
  simp only [Point.distanceSq, pt0, qv0, List.zipWith_replicate, List.sum_replicate]
  norm_num

/-- Looking a key up after appending a row for it to a table where it was
absent finds the new row. -/
theorem lookup_append_of_none {α : Type} (l : List (String × α)) (k : String)
    (v : α) (h : l.lookup k = none) : (l ++ [(k, v)]).lookup k = some v := by
  induction l with
  | nil => simp [List.lookup]
  | cons a t ih =>
    rw [List.cons_append]
    rw [List.lookup] at h ⊢
    cases hk : (k == a.1) with
    | true =>
      simp only [hk] at h
      exact absurd h (Option.some_ne_none a.2)
    | false =>
      simp only [hk] at h ⊢
      exact ih h

/-- try_find_in_sqlite misses exactly when the table has no row for the key. -/
theorem try_find_eq_none_iff (kv : List (String × List (List ℚ)))
    (sentence : String) :
    try_find_in_sqlite kv sentence = none ↔ kv.lookup sentence = none := by
  simp [try_find_in_sqlite]

/-- strStartsWith holds exactly on extensions of the pattern. -/
theorem strStartsWith_iff (p s : List Char) :
    strStartsWith p s = true ↔ ∃ r, s = p ++ r := by
  induction p generalizing s with
  | nil =>
    simp only [strStartsWith, List.nil_append]
    exact ⟨fun _ => ⟨s, rfl⟩, fun _ => trivial⟩
  | cons c cs ih =>
    cases s with
    | nil =>
      simp only [strStartsWith, List.cons_append]
      constructor
      · intro h
        cases h
      · rintro ⟨r, h⟩
        cases h
    | cons a t =>
      simp only [strStartsWith, Bool.and_eq_true, beq_iff_eq, List.cons_append,
        List.cons.injEq, ih]
      constructor
      · rintro ⟨h1, r, h2⟩
        exact ⟨r, h1.symm, h2⟩
      · rintro ⟨r, h1, h2⟩
        exact ⟨h1.symm, r, h2⟩

/-! Claim C6 — dimension conservation of Point construction and
deserialization. -/

/-- C6 (confirmed).  For every float sequence, Point::from_slice and the
Deserialize impl for Point succeed exactly when the sequence has length
D = 1536, and any point they produce carries exactly D values; on any
other length the operation fails (copy_from_slice panics, serde rejects
the array) and no partial vector is produced. -/
theorem c6_dim_conservation (v : List ℚ) :
    ((Point.from_slice v).isSome ↔ v.length = D) ∧
    ((Point.deserialize v).isSome ↔ v.length = D) ∧
    (∀ p, Point.from_slice v = some p → p.val.length = D) ∧
    (∀ p, Point.deserialize v = some p → p.val.length = D) := by
  refine ⟨?_, ?_, ?_, ?_⟩
  · simp [Point.from_slice]
  · simp [Point.deserialize]
  · intro p _
    exact p.property
  · intro p _
    exact p.property

/-- C6 witness: the theorem applied at the concrete inputs qv0 (length D,
accepted, the produced point has D values) and the empty sequence
(length 0 ≠ D, rejected). -/
theorem c6_dim_conservation_witness :
    (Point.from_slice qv0).isSome = true ∧ pt0.val.length = D ∧
    (Point.from_slice []).isSome = false := by
  refine ⟨?_, ?_, ?_⟩
  · exact ((c6_dim_conservation qv0).1.mpr qv0_length)
  · exact (c6_dim_conservation qv0).2.2.1 pt0 from_slice_qv0
  · have h := (c6_dim_conservation []).1
    rw [Bool.eq_false_iff]
    intro hcon
    have : ([] : List ℚ).length = D := h.mp hcon
    simp [D] at this

/-! Claim C8 — the should_insert query flag. -/

/-- C8 counterexample.  The query string x=1&should_insert=1 carries the
should_insert parameter (it appears verbatim inside the string), yet the
handlers compute should_insert = false for it, because the code tests
query_str.starts_with: the claim that the position among the query
parameters does not matter is false. -/
theorem c8_position_counterexample :
    should_insert_query_params ("x=1&should_insert=1".toList) = false ∧
    "x=1&should_insert=1".toList =
      "x=1&".toList ++ "should_insert".toList ++ "=1".toList := by
  constructor
  · decide
  · decide

/-- C8 (corrected).  Write-through is enabled exactly when the raw query
string STARTS WITH the literal should_insert: any value and any tail after
it enable it (presence alone, value irrelevant), but a should_insert
parameter that is not at the very front of the query string does not. -/
theorem c8_flag_startsWith (q : List Char) :
    should_insert_query_params q = true ↔
      ∃ rest, q = "should_insert".toList ++ rest := by
  exact strStartsWith_iff ("should_insert".toList) q

/-- C8 witness: the theorem applied at two concrete query strings, with and
without a value for the flag. -/
theorem c8_flag_startsWith_witness :
    should_insert_query_params ("should_insert=1".toList) = true ∧
    should_insert_query_params ("should_insert".toList) = true := by
  constructor
  · exact (c8_flag_startsWith ("should_insert=1".toList)).mpr
      ⟨"=1".toList, by decide⟩
  · exact (c8_flag_startsWith ("should_insert".toList)).mpr
      ⟨[], by decide⟩

/-! Claim C2 — search against an empty index. -/

/-- The store state the service starts from on first run: an index built
empty, empty tables, no readable snapshot. -/
def emptyServerState : ServerState :=
  { arc_mutex_map := HnswMap.build [] []
    arc_conn := { key_value_store := [], key_label_store := [] }
    hnsw_file := none }

/-- C2 (code_bug).  Evaluating the /search handler on the empty index at the
well-formed body of D zeros: the search iterator yields nothing and the
handler's .next().unwrap() panics (modelled none) — there is no 200
empty-result response, contradicting the specified invariant that a search
on an empty index yields an empty sequence and not an error. -/
theorem c2_empty_search_panics : search qv0 emptyServerState = none := by
  simp only [search, emptyServerState, from_slice_qv0, Option.some_bind,
    HnswMap.searchAll, HnswMap.build, List.zip_nil_left, List.map_nil, sortByDist,
    List.foldl_nil]

/-! Claim C5 — totality of /wipe. -/

/-- C5 (confirmed).  After /wipe: the in-memory index has size zero (the
entry count the code reads is map.values.len()), both metadata lookups
miss for every sentence, and /load restores the snapshot written by the
wipe to an index of size zero. -/
theorem c5_wipe_totality (st : ServerState) (s : String) :
    (wipe st).arc_mutex_map.values.length = 0 ∧
    try_find_in_sqlite (wipe st).arc_conn.key_value_store s = none ∧
    try_find_label_in_sqlite (wipe st).arc_conn s = none ∧
    ∃ st2, load (wipe st) = some st2 ∧ st2.arc_mutex_map.values.length = 0 := by
  refine ⟨rfl, ?_, ?_, ?_⟩
  · simp [wipe, try_find_in_sqlite, List.lookup]
  · simp [wipe, try_find_label_in_sqlite, List.lookup]
  · exact ⟨_, rfl, rfl⟩

/-! Claim C10 — /init and /update leave the metadata store untouched. -/

/-- C10 (confirmed).  The /init and /update handlers neither write the sqlite
tables nor the snapshot file (the connection and the file pass through
unchanged), and they do not read them either: on two states agreeing on
the in-memory map, both handlers produce the same resulting map. -/
theorem c10_init_update_frame (req : Request) (st st2 : ServerState) :
    (∀ st1, init req st = some st1 →
        st1.arc_conn = st.arc_conn ∧ st1.hnsw_file = st.hnsw_file) ∧
    (∀ st1, update req st = some st1 →
        st1.arc_conn = st.arc_conn ∧ st1.hnsw_file = st.hnsw_file) ∧
    (st.arc_mutex_map = st2.arc_mutex_map →
      (init req st).map ServerState.arc_mutex_map =
          (init req st2).map ServerState.arc_mutex_map ∧
        (update req st).map ServerState.arc_mutex_map =
          (update req st2).map ServerState.arc_mutex_map) := by
  refine ⟨?_, ?_, ?_⟩
  · intro st1 h
    simp only [init, Option.map_eq_some'] at h
    obtain ⟨pts, _, h2⟩ := h
    subst h2
    exact ⟨rfl, rfl⟩
  · intro st1 h
    simp only [update, Option.map_eq_some'] at h
    obtain ⟨m2, _, h2⟩ := h
    subst h2
    exact ⟨rfl, rfl⟩
  · intro hmap
    constructor
    · simp only [init, Option.map_map]
      rfl
    · simp only [update, Option.map_map, hmap]
      rfl

/-- A state whose metadata store and snapshot differ from emptyServerState
while the map agrees. -/
def c10AltState : ServerState :=
  { arc_mutex_map := HnswMap.build [] []
    arc_conn := { key_value_store := [("x", [[1]])], key_label_store := [("x", "L")] }
    hnsw_file := some (HnswMap.build [] []) }

/-- The result of /init with the empty request on c10AltState. -/
def c10InitResult : ServerState :=
  { c10AltState with arc_mutex_map := HnswMap.build [] [] }

theorem c10_init_eval :
    init { sentences := [], vectors := [] } c10AltState = some c10InitResult := by
  rfl

/-- C10 witness: the frame part applied at the concrete /init run on
c10AltState, and the independence part applied to emptyServerState and
c10AltState, which agree on the map and differ on both tables and the
snapshot file. -/
theorem c10_init_update_frame_witness :
    c10InitResult.arc_conn = c10AltState.arc_conn ∧
    c10InitResult.hnsw_file = c10AltState.hnsw_file ∧
    (init { sentences := [], vectors := [] } emptyServerState).map
        ServerState.arc_mutex_map =
      (init { sentences := [], vectors := [] } c10AltState).map
        ServerState.arc_mutex_map := by
  have h1 := (c10_init_update_frame { sentences := [], vectors := [] }
    c10AltState emptyServerState).1 c10InitResult c10_init_eval
  have h2 := (c10_init_update_frame { sentences := [], vectors := [] }
    emptyServerState c10AltState).2.2 rfl
  exact ⟨h1.1, h1.2, h2.1⟩

/-! Claim C7 — mismatched parallel lists. -/

/-- A /update request whose parallel lists have unequal lengths. -/
def c7Req : Request := { sentences := ["a"], vectors := [qv0, qv0] }

/-- The state after /update with c7Req on the empty state. -/
def c7ResState : ServerState :=
  { emptyServerState with arc_mutex_map := (HnswMap.build [] []).insert pt0 "a" }

theorem c7_update_eval : update c7Req emptyServerState = some c7ResState := by
  simp only [update, c7Req, emptyServerState, c7ResState, List.zip_cons_cons,
    List.zip_nil_right, List.foldlM_cons, List.foldlM_nil, from_slice_qv0,
    Option.map_some', Option.some_bind, Option.pure_def]
  rfl

/-- C7 counterexample.  The /update request with two vectors and one sentence
is not rejected: the handler answers 200 (a some result) and inserts the
zipped prefix — the single pair (qv0, a) — into the index, so state does
change and a prefix of the pairs is processed. -/
theorem c7_mismatch_counterexample :
    update c7Req emptyServerState = some c7ResState ∧
    c7ResState.arc_mutex_map.values = ["a"] ∧
    c7Req.vectors.length ≠ c7Req.sentences.length := by
  refine ⟨c7_update_eval, rfl, by decide⟩

/-- The values appended by the /update fold are exactly the payloads of the
zipped pairs. -/
theorem update_foldlM_values
    (l : List (List ℚ × String)) :
    ∀ (m m2 : HnswMap),
      l.foldlM (fun m vs => (Point.from_slice vs.1).map fun p => m.insert p vs.2)
          m = some m2 →
      m2.values = m.values ++ l.map Prod.snd := by
  induction l with
  | nil =>
    intro m m2 h
    simp only [List.foldlM_nil, Option.pure_def, Option.some.injEq] at h
    subst h
    simp
  | cons hd tl ih =>
    intro m m2 h
    rw [List.foldlM_cons] at h
    cases hp : Point.from_slice hd.1 with
    | none =>
      rw [hp] at h
      simp at h
    | some p =>
      rw [hp] at h
      simp only [Option.map_some', Option.some_bind] at h
      have := ih (m.insert p hd.2) m2 h
      rw [this]
      simp [HnswMap.insert]

/-- The payload components of a zip are the prefix of the second list capped
at the shorter length. -/
theorem map_snd_zip_take {α β : Type} :
    ∀ (as : List α) (bs : List β),
      (as.zip bs).map Prod.snd = bs.take (min as.length bs.length) := by
  intro as
  induction as with
  | nil => intro bs; simp
  | cons a at' ih =>
    intro bs
    cases bs with
    | nil => simp
    | cons b bt =>
      simp only [List.zip_cons_cons, List.map_cons, List.length_cons,
        Nat.succ_min_succ, List.take_succ_cons, ih]

/-- In the labelled endpoint loop, each processed pair appends exactly one
response. -/
theorem label_loop_length (embedF : String → List ℚ) (si : Bool) :
    ∀ (l : List (String × String)) (acc : List MyLabelledResponse)
      (st : ServerState) (res : List MyLabelledResponse) (st1 : ServerState),
      l.foldlM (fun acc2 sl =>
          (process_sentence_with_label embedF sl.1 sl.2 acc2.2 si).map fun r =>
            (acc2.1 ++ [r.1], r.2.1)) (acc, st) = some (res, st1) →
      res.length = acc.length + l.length := by
  intro l
  induction l with
  | nil =>
    intro acc st res st1 h
    simp only [List.foldlM_nil, Option.pure_def, Option.some.injEq] at h
    injection h with h1 h2
    subst h1
    simp
  | cons hd tl ih =>
    intro acc st res st1 h
    rw [List.foldlM_cons] at h
    cases hp : process_sentence_with_label embedF hd.1 hd.2 st si with
    | none =>
      rw [hp] at h
      simp at h
    | some r =>
      rw [hp] at h
      simp only [Option.map_some', Option.some_bind] at h
      have := ih (acc ++ [r.1]) r.2.1 res st1 h
      simp only [List.length_append, List.length_cons, List.length_nil] at this ⊢
      omega

/-- C7 (corrected).  Requests with unequal parallel lists are not rejected
and no 400 is produced for them (400 arises only from malformed JSON):
/update processes exactly the zipped pairs, appending the first
min(vectors, sentences) payloads to the index, and the labelled endpoint
produces exactly one response per zipped (sentence, label) pair —
min(sentences, labels) of them — short of an internal error. -/
theorem c7_mismatch_amended (req : Request) (reqL : EmbedLabelRequest)
    (st : ServerState) (embedF : String → List ℚ) (q : List Char) :
    (∀ st1, update req st = some st1 →
        st1.arc_mutex_map.values =
          st.arc_mutex_map.values ++
            req.sentences.take (min req.vectors.length req.sentences.length)) ∧
    (∀ res st1, embed_label_search_insert embedF q reqL st = some (res, st1) →
        res.length = min reqL.sentences.length reqL.labels.length) := by
  constructor
  · intro st1 h
    simp only [update, Option.map_eq_some'] at h
    obtain ⟨m2, hm, h2⟩ := h
    subst h2
    have := update_foldlM_values (req.vectors.zip req.sentences)
      st.arc_mutex_map m2 hm
    rw [map_snd_zip_take] at this
    exact this
  · intro res st1 h
    simp only [embed_label_search_insert] at h
    have := label_loop_length embedF (should_insert_query_params q)
      (reqL.sentences.zip reqL.labels) [] st res st1 h
    simpa [List.length_zip] using this

/-- C7 witness: the amended theorem applied at the concrete mismatched
/update run (two vectors, one sentence: exactly the one zipped payload is
appended) and at a labelled request with no sentences and one label
(zero zipped pairs, zero responses). -/
theorem c7_mismatch_amended_witness :
    c7ResState.arc_mutex_map.values = [] ++ ["a"].take (min 2 1) ∧
    ([] : List MyLabelledResponse).length = min 0 1 := by
  constructor
  · have h := (c7_mismatch_amended c7Req { sentences := [], labels := ["L"] }
      emptyServerState (fun _ => qv0) []).1 c7ResState c7_update_eval
    exact h
  · have h := (c7_mismatch_amended c7Req { sentences := [], labels := ["L"] }
      emptyServerState (fun _ => qv0) []).2 [] emptyServerState (by rfl)
    exact h

/-! Shape of the two process_sentence paths, as equations. -/

/-- Cache-hit path of process_sentence: search with the stored vector and
answer "already exists", leaving the connection untouched. -/
theorem process_sentence_hit_eq (embedF : String → List ℚ) (sentence : String)
    (data : ServerState) (si : Bool) (res : MyResponse)
    (hhit : try_find_in_sqlite data.arc_conn.key_value_store sentence = some res) :
    process_sentence embedF sentence data si =
      (search_closest_points data.arc_mutex_map res.search_distance
          { sentences := [sentence], vectors := [res.search_distance] }).map
        fun scp =>
          ({ search_result := scp.1.map Prod.fst
             search_distance := scp.1.map Prod.snd
             insertion := "already exists" },
           { data with arc_mutex_map := scp.2 },
           [Event.lockStore, Event.storeRead, Event.lockIndex, Event.unlockIndex,
            Event.unlockStore]) := by
  simp only [process_sentence, hhit]

/-- Cache-miss path of process_sentence with should_insert: write the value
row, search, insert unconditionally, answer "inserted". -/
theorem process_sentence_miss_eq (embedF : String → List ℚ) (sentence : String)
    (data : ServerState)
    (hmiss : data.arc_conn.key_value_store.lookup sentence = none) :
    process_sentence embedF sentence data true =
      (search_closest_points data.arc_mutex_map (embedF sentence)
          { sentences := [sentence], vectors := [embedF sentence] }).bind
        fun scp =>
          ((insert_if_needed scp.2 (embedF sentence) sentence).map Prod.fst).map
            fun map2 =>
              ({ search_result := scp.1.map Prod.fst
                 search_distance := scp.1.map Prod.snd
                 insertion := "inserted" },
               { data with
                   arc_mutex_map := map2
                   arc_conn := { data.arc_conn with
                     key_value_store :=
                       data.arc_conn.key_value_store ++
                         [(sentence, [embedF sentence])] } },
               [Event.lockStore, Event.storeRead, Event.embedCall,
                Event.storeWrite, Event.lockIndex, Event.unlockIndex,
                Event.lockIndex, Event.unlockIndex, Event.unlockStore]) := by
  have htf : try_find_in_sqlite data.arc_conn.key_value_store sentence = none :=
    (try_find_eq_none_iff _ _).mpr hmiss
  simp only [process_sentence, htf, if_true, sqliteInsert, hmiss,
    Option.isSome_none, Bool.false_eq_true, if_false, Option.some_bind,
    List.cons_append, List.nil_append]

/-! Concrete search evaluations used by the counterexamples and witnesses. -/

theorem take15_one {x : String × ℚ} : List.take 15 [x] = [x] :=
  List.take_of_length_le (by norm_num)

theorem take15_two {x y : String × ℚ} : List.take 15 [x, y] = [x, y] :=
  List.take_of_length_le (by norm_num)

theorem take15_six {a b c d e f : String × ℚ} :
    List.take 15 [a, b, c, d, e, f] = [a, b, c, d, e, f] :=
  List.take_of_length_le (by norm_num)

theorem take5_one {x : String × ℚ} : List.take 5 [x] = [x] :=
  List.take_of_length_le (by norm_num)

/-- The single-entry index built from (pt0, a). -/
def mapA : HnswMap := HnswMap.build [pt0] ["a"]

theorem searchAll_mapA : mapA.searchAll pt0 = [("a", 0)] := by
  simp only [mapA, HnswMap.searchAll, HnswMap.build, List.zip_cons_cons,
    List.zip_nil_right, List.map_cons, List.map_nil, distanceSq_pt0, sortByDist,
    List.foldl_cons, List.foldl_nil, insertByDist]

/-- The index after the bootstrap build and the duplicate insert of the first
C3 call: two copies of (pt0, a). -/
def mapAA : HnswMap := mapA.insert pt0 "a"

theorem mapAA_eq : mapAA = ⟨[pt0, pt0], ["a", "a"]⟩ := by
  simp only [mapAA, mapA, HnswMap.build, HnswMap.insert, List.cons_append,
    List.nil_append]

theorem searchAll_mapAA : mapAA.searchAll pt0 = [("a", 0), ("a", 0)] := by
  rw [mapAA_eq]
  simp only [HnswMap.searchAll, List.zip_cons_cons, List.zip_nil_right,
    List.map_cons, List.map_nil, distanceSq_pt0, sortByDist, List.foldl_cons,
    List.foldl_nil, insertByDist, le_refl, if_true]

/-! Claim C1 — the insertion gate. -/

/-- Store state holding the single entry (pt0, a) with empty tables. -/
def stC1 : ServerState :=
  { arc_mutex_map := mapA
    arc_conn := { key_value_store := [], key_label_store := [] }
    hnsw_file := none }

/-- Response of the C1 run: the nearest existing point lies at (squared)
distance 0. -/
def rC1 : MyResponse :=
  { search_result := ["a"], search_distance := [0], insertion := "inserted" }

/-- State after the C1 run: b was inserted into the index and cached. -/
def stC1r : ServerState :=
  { arc_mutex_map := mapA.insert pt0 "b"
    arc_conn := { key_value_store := [("b", [qv0])], key_label_store := [] }
    hnsw_file := none }

/-- Event trace of a miss run with should_insert. -/
def evMiss : List Event :=
  [Event.lockStore, Event.storeRead, Event.embedCall, Event.storeWrite,
   Event.lockIndex, Event.unlockIndex, Event.lockIndex, Event.unlockIndex,
   Event.unlockStore]

theorem scp_mapA :
    search_closest_points mapA qv0 { sentences := ["b"], vectors := [qv0] } =
      some ([("a", 0)], mapA) := by
  have hlen : mapA.values.length = 1 := rfl
  simp [search_closest_points, from_slice_qv0, hlen, searchAll_mapA, take15_one]

theorem c1_run_eval :
    process_sentence (fun _ => qv0) "b" stC1 true = some (rC1, stC1r, evMiss) := by
  rw [process_sentence_miss_eq (fun _ => qv0) "b" stC1 rfl]
  show (search_closest_points mapA qv0 { sentences := ["b"], vectors := [qv0] }).bind
      _ = _
  rw [scp_mapA]
  simp [insert_if_needed, from_slice_qv0, rC1, stC1r, evMiss, stC1]

/-- C1 counterexample.  A fresh sentence b (cache miss, should_insert set)
whose embedding coincides with the existing point (nearest squared
distance 0, far below the threshold) IS inserted into the index by the
pipeline: process_sentence has no distance gate, so insertion does not
hold iff d0 exceeds 0.002. -/
theorem c1_gate_counterexample :
    process_sentence (fun _ => qv0) "b" stC1 true = some (rC1, stC1r, evMiss) ∧
    stC1r.arc_mutex_map.values = ["a", "b"] ∧
    rC1.search_distance = [0] ∧
    ¬ INSERT_THRESHOLD_SQ < 0 := by
  refine ⟨c1_run_eval, rfl, rfl, by norm_num [INSERT_THRESHOLD_SQ]⟩

/-- C1 (corrected).  In the store pipeline (process_sentence, the code behind
/embed_search_insert), a fresh sentence processed with should_insert is
ALWAYS written to the metadata store and ALWAYS inserted into the index —
there is no distance gate.  The distance-gated policy of the claim holds
only in the legacy src/main.rs embed_search_insert handler: there, on a
cache miss with a nonempty index, the metadata write is unconditional and
the pair is inserted iff the nearest (squared) distance exceeds the
(squared) threshold 0.002. -/
theorem c1_gate_amended :
    (∀ (embedF : String → List ℚ) (sentence : String) (data : ServerState)
        (r : MyResponse) (st1 : ServerState) (ev : List Event),
        data.arc_conn.key_value_store.lookup sentence = none →
        process_sentence embedF sentence data true = some (r, st1, ev) →
        (∃ vals, st1.arc_mutex_map.values = vals ++ [sentence]) ∧
          st1.arc_conn.key_value_store.lookup sentence = some [embedF sentence] ∧
          r.insertion = "inserted") ∧
    (∀ (embedF : String → List ℚ) (sentence : String)
        (req_sentences : List String) (st st1 : Legacy.MainAppState)
        (r : MyResponse) (point : Point) (c0 : String × ℚ)
        (rest : List (String × ℚ)),
        st.key_value_store.lookup sentence = none →
        st.arc_mutex_map.values.length ≠ 0 →
        Point.from_slice (embedF sentence) = some point →
        (st.arc_mutex_map.searchAll point).take 5 = c0 :: rest →
        Legacy.embed_search_insert_step embedF sentence req_sentences st =
          some (r, st1) →
        st1.key_value_store =
            st.key_value_store ++ [(sentence, [embedF sentence])] ∧
          (INSERT_THRESHOLD_SQ < c0.2 →
            st1.arc_mutex_map = st.arc_mutex_map.insert point sentence ∧
              r.insertion = "success") ∧
          (¬ INSERT_THRESHOLD_SQ < c0.2 →
            st1.arc_mutex_map = st.arc_mutex_map ∧
              r.insertion = "no insert")) := by
  constructor
  · intro embedF sentence data r st1 ev hmiss hrun
    rw [process_sentence_miss_eq embedF sentence data hmiss] at hrun
    rw [Option.bind_eq_some] at hrun
    obtain ⟨scp, hscp, hrun⟩ := hrun
    rw [Option.map_eq_some'] at hrun
    obtain ⟨map2, hmap2, heq⟩ := hrun
    rw [Option.map_eq_some'] at hmap2
    obtain ⟨pair, hpair, hfst⟩ := hmap2
    rw [insert_if_needed, Option.map_eq_some'] at hpair
    obtain ⟨p, _, hpaireq⟩ := hpair
    injection heq with h_r heq2
    injection heq2 with h_st1 h_ev
    subst h_r
    subst h_st1
    refine ⟨⟨scp.2.values, ?_⟩, ?_, rfl⟩
    · rw [← hfst, ← hpaireq]
      rfl
    · exact lookup_append_of_none _ _ _ hmiss
  · intro embedF sentence req_sentences st st1 r point c0 rest hmiss hne hpoint
      htake hrun
    rw [Legacy.embed_search_insert_step] at hrun
    rw [hmiss] at hrun
    simp only [sqliteInsert, hmiss, Option.isSome_none, Bool.false_eq_true,
      if_false, Option.some_bind, List.headD_cons] at hrun
    rw [hpoint] at hrun
    rw [Option.some_bind] at hrun
    rw [if_neg hne] at hrun
    rw [htake] at hrun
    simp only [] at hrun
    by_cases hlt : INSERT_THRESHOLD_SQ < c0.2
    · rw [if_pos hlt] at hrun
      rw [Option.some.injEq] at hrun
      injection hrun with h_r h_st1
      subst h_st1
      refine ⟨rfl, fun _ => ⟨rfl, ?_⟩, fun hc => absurd hlt hc⟩
      rw [← h_r]
    · rw [if_neg hlt] at hrun
      rw [Option.some.injEq] at hrun
      injection hrun with h_r h_st1
      subst h_st1
      refine ⟨rfl, fun hc => absurd hc hlt, fun _ => ⟨rfl, ?_⟩⟩
      rw [← h_r]

/-- Legacy service state holding the single entry (pt0, a). -/
def stL : Legacy.MainAppState :=
  { arc_mutex_map := mapA, bloom := [], key_value_store := [] }

/-- Response of the legacy run: nearest distance 0, below the threshold. -/
def rL : MyResponse :=
  { search_result := ["a"], search_distance := [0], insertion := "no insert" }

/-- Legacy state after the run: cached, not inserted into the index. -/
def stLr : Legacy.MainAppState :=
  { arc_mutex_map := mapA, bloom := ["b"], key_value_store := [("b", [qv0])] }

theorem c1_legacy_run_eval :
    Legacy.embed_search_insert_step (fun _ => qv0) "b" ["b"] stL =
      some (rL, stLr) := by
  rw [Legacy.embed_search_insert_step]
  norm_num [stL, List.lookup_nil, sqliteInsert, Option.isSome_none,
    from_slice_qv0, searchAll_mapA, take5_one, INSERT_THRESHOLD_SQ, rL, stLr,
    show mapA.values.length = 1 from rfl]

/-- C1 witness: the amended theorem applied to the concrete store run (fresh
sentence b at distance 0 is cached and inserted) and to the concrete
legacy run (fresh sentence b at distance 0 is cached but not inserted). -/
theorem c1_gate_amended_witness :
    (∃ vals, stC1r.arc_mutex_map.values = vals ++ ["b"]) ∧
    stC1r.arc_conn.key_value_store.lookup "b" = some [qv0] ∧
    stLr.key_value_store = [] ++ [("b", [qv0])] ∧
    stLr.arc_mutex_map = stL.arc_mutex_map ∧
    rL.insertion = "no insert" := by
  have h1 := c1_gate_amended.1 (fun _ => qv0) "b" stC1 rC1 stC1r evMiss rfl
    c1_run_eval
  have h2 := c1_gate_amended.2 (fun _ => qv0) "b" ["b"] stL stLr rL pt0
    ("a", 0) [] rfl (by simp [stL, mapA, HnswMap.build]) from_slice_qv0
    (by rw [show stL.arc_mutex_map = mapA from rfl, searchAll_mapA, take5_one])
    c1_legacy_run_eval
  have h3 := h2.2.2 (by norm_num [INSERT_THRESHOLD_SQ])
  exact ⟨h1.1, h1.2.1, h2.1, h3.1, h3.2⟩

/-! Shape of search_closest_points and the labelled pipeline paths. -/

/-- On a nonempty map, search_closest_points searches the map as given (the
structured request is ignored). -/
theorem scp_nonempty (m : HnswMap) (v : List ℚ) (req : Request) (p : Point)
    (hp : Point.from_slice v = some p) (hne : ¬ m.values.length = 0) :
    search_closest_points m v req = some ((m.searchAll p).take 15, m) := by
  simp only [search_closest_points, hp, Option.some_bind, if_neg hne,
    Option.map_some']

/-- On an empty map, search_closest_points first bootstrap-builds the map
from the whole structured request, then searches it. -/
theorem scp_empty (m : HnswMap) (v : List ℚ) (req : Request) (p : Point)
    (pts : List Point) (hp : Point.from_slice v = some p)
    (hz : m.values.length = 0)
    (hpts : req.vectors.mapM Point.from_slice = some pts) :
    search_closest_points m v req =
      some (((HnswMap.build pts req.sentences).searchAll p).take 15,
        HnswMap.build pts req.sentences) := by
  simp only [search_closest_points, hp, Option.some_bind, if_pos hz, hpts,
    Option.map_some']

/-- Any successful search_closest_points returns at most 15 results. -/
theorem search_closest_points_len (m : HnswMap) (v : List ℚ) (req : Request)
    (scp : List (String × ℚ) × HnswMap)
    (h : search_closest_points m v req = some scp) : scp.1.length ≤ 15 := by
  rw [search_closest_points, Option.bind_eq_some] at h
  obtain ⟨p, _, h⟩ := h
  rw [Option.map_eq_some'] at h
  obtain ⟨map1, _, heq⟩ := h
  rw [← heq]
  exact List.length_take_le 15 _

/-- Cache-hit path of process_sentence_with_label. -/
theorem process_sentence_with_label_hit_eq (embedF : String → List ℚ)
    (sentence label : String) (data : ServerState) (si : Bool)
    (res : MyLabelledResponse)
    (hhit : try_find_label_in_sqlite data.arc_conn sentence = some res) :
    process_sentence_with_label embedF sentence label data si =
      (search_closest_points data.arc_mutex_map res.search_distance
          { sentences := [sentence], vectors := [res.search_distance] }).map
        fun scp =>
          ({ search_result := scp.1.map Prod.fst
             search_distance := scp.1.map Prod.snd
             insertion := "already exists"
             labels := res.labels },
           { data with arc_mutex_map := scp.2 },
           [Event.lockStore, Event.storeRead, Event.lockIndex, Event.unlockIndex,
            Event.unlockStore]) := by
  simp only [process_sentence_with_label, hhit]

/-- Cache-miss path of process_sentence_with_label with should_insert:
INSERT the label row and the value row, search, insert unconditionally,
fan out the labels of the returned payloads over the updated store. -/
theorem process_sentence_with_label_miss_eq (embedF : String → List ℚ)
    (sentence label : String) (data : ServerState)
    (hlblnew : data.arc_conn.key_label_store.lookup sentence = none)
    (hkvnew : data.arc_conn.key_value_store.lookup sentence = none) :
    process_sentence_with_label embedF sentence label data true =
      (search_closest_points data.arc_mutex_map (embedF sentence)
          { sentences := [sentence], vectors := [embedF sentence] }).bind
        fun scp =>
          ((insert_if_needed scp.2 (embedF sentence) sentence).map Prod.fst).map
            fun map2 =>
              let conn1 : Connection :=
                { key_value_store :=
                    data.arc_conn.key_value_store ++
                      [(sentence, [embedF sentence])]
                  key_label_store :=
                    data.arc_conn.key_label_store ++ [(sentence, label)] }
              ({ search_result := scp.1.map Prod.fst
                 search_distance := scp.1.map Prod.snd
                 insertion := "inserted"
                 labels := scp.1.foldl (fun acc cp =>
                   match try_find_label_in_sqlite conn1 cp.1 with
                   | some r => acc ++ r.labels
                   | none => acc) [] },
               { data with arc_mutex_map := map2, arc_conn := conn1 },
               [Event.lockStore, Event.storeRead, Event.embedCall,
                Event.storeWrite, Event.storeWrite, Event.lockIndex,
                Event.unlockIndex, Event.lockIndex, Event.unlockIndex]
                 ++ scp.1.map (fun _ => Event.storeRead)
                 ++ [Event.unlockStore]) := by
  have hmiss : try_find_label_in_sqlite data.arc_conn sentence = none := by
    simp [try_find_label_in_sqlite, hlblnew]
  simp only [process_sentence_with_label, hmiss, if_true, sqliteInsert,
    hlblnew, hkvnew, Option.isSome_none, Bool.false_eq_true, if_false,
    Option.some_bind, Option.map_some', List.cons_append, List.nil_append]

/-! Claim C4 — the top-K caps of the two endpoints. -/

/-- Any successful process_sentence run returns at most 15 search results. -/
theorem process_sentence_len (embedF : String → List ℚ) (sentence : String)
    (data : ServerState) (si : Bool) (r : MyResponse) (st1 : ServerState)
    (ev : List Event)
    (h : process_sentence embedF sentence data si = some (r, st1, ev)) :
    r.search_result.length ≤ 15 := by
  cases htf : try_find_in_sqlite data.arc_conn.key_value_store sentence with
  | some res =>
    rw [process_sentence_hit_eq embedF sentence data si res htf] at h
    rw [Option.map_eq_some'] at h
    obtain ⟨scp, hscp, heq⟩ := h
    injection heq with h_r _
    rw [← h_r]
    simp only [List.length_map]
    exact search_closest_points_len _ _ _ _ hscp
  | none =>
    simp only [process_sentence, htf] at h
    rw [Option.bind_eq_some] at h
    obtain ⟨kv1, _, h⟩ := h
    rw [Option.bind_eq_some] at h
    obtain ⟨scp, hscp, h⟩ := h
    rw [Option.map_eq_some'] at h
    obtain ⟨map2, _, heq⟩ := h
    injection heq with h_r _
    rw [← h_r]
    simp only [List.length_map]
    exact search_closest_points_len _ _ _ _ hscp

/-- Any successful process_sentence_with_label run returns at most 15 search
results. -/
theorem process_sentence_with_label_len (embedF : String → List ℚ)
    (sentence label : String) (data : ServerState) (si : Bool)
    (r : MyLabelledResponse) (st1 : ServerState) (ev : List Event)
    (h : process_sentence_with_label embedF sentence label data si =
      some (r, st1, ev)) :
    r.search_result.length ≤ 15 := by
  cases htf : try_find_label_in_sqlite data.arc_conn sentence with
  | some res =>
    rw [process_sentence_with_label_hit_eq embedF sentence label data si res
      htf] at h
    rw [Option.map_eq_some'] at h
    obtain ⟨scp, hscp, heq⟩ := h
    injection heq with h_r _
    rw [← h_r]
    simp only [List.length_map]
    exact search_closest_points_len _ _ _ _ hscp
  | none =>
    simp only [process_sentence_with_label, htf] at h
    rw [Option.bind_eq_some] at h
    obtain ⟨conn1, _, h⟩ := h
    rw [Option.bind_eq_some] at h
    obtain ⟨scp, hscp, h⟩ := h
    rw [Option.map_eq_some'] at h
    obtain ⟨map2, _, heq⟩ := h
    injection heq with h_r _
    rw [← h_r]
    simp only [List.length_map]
    exact search_closest_points_len _ _ _ _ hscp

/-- Any successful legacy per-sentence run returns at most 5 search results. -/
theorem legacy_step_len (embedF : String → List ℚ) (sentence : String)
    (req_sentences : List String) (st st1 : Legacy.MainAppState)
    (r : MyResponse)
    (h : Legacy.embed_search_insert_step embedF sentence req_sentences st =
      some (r, st1)) :
    r.search_result.length ≤ 5 := by
  cases hl : st.key_value_store.lookup sentence with
  | some row =>
    simp only [Legacy.embed_search_insert_step, hl, Option.some.injEq] at h
    injection h with h_r _
    rw [← h_r]
    norm_num
  | none =>
    simp only [Legacy.embed_search_insert_step, hl, sqliteInsert,
      Option.isSome_none, Bool.false_eq_true, if_false, Option.some_bind,
      List.headD_cons] at h
    cases hp : Point.from_slice (embedF sentence) with
    | none =>
      rw [hp] at h
      simp at h
    | some point =>
      rw [hp] at h
      rw [Option.some_bind] at h
      by_cases hz : st.arc_mutex_map.values.length = 0
      · rw [if_pos hz] at h
        rw [Option.map_eq_some'] at h
        obtain ⟨pts, _, heq⟩ := h
        injection heq with h_r _
        rw [← h_r]
        norm_num
      · rw [if_neg hz] at h
        cases hm : (st.arc_mutex_map.searchAll point).take 5 with
        | nil =>
          rw [hm] at h
          simp at h
        | cons c0 rest =>
          rw [hm] at h
          simp only [] at h
          by_cases hlt : INSERT_THRESHOLD_SQ < c0.2
          · rw [if_pos hlt, Option.some.injEq] at h
            injection h with h_r _
            rw [← h_r]
            simp only [List.length_map]
            rw [← hm]
            exact List.length_take_le 5 _
          · rw [if_neg hlt, Option.some.injEq] at h
            injection h with h_r _
            rw [← h_r]
            simp only [List.length_map]
            rw [← hm]
            exact List.length_take_le 5 _

/-- C4 (corrected).  Both store-service pipelines cap the neighbor list at
K = 15 — the unlabelled /embed_search_insert included, since
process_sentence shares search_closest_points with the labelled endpoint —
while the K = 5 cap belongs to the legacy src/main.rs embed_search_insert
handler, not to the store service's unlabelled endpoint. -/
theorem c4_topk_amended :
    (∀ (embedF : String → List ℚ) (sentence : String) (data : ServerState)
        (si : Bool) (r : MyResponse) (st1 : ServerState) (ev : List Event),
        process_sentence embedF sentence data si = some (r, st1, ev) →
        r.search_result.length ≤ 15) ∧
    (∀ (embedF : String → List ℚ) (sentence label : String)
        (data : ServerState) (si : Bool) (r : MyLabelledResponse)
        (st1 : ServerState) (ev : List Event),
        process_sentence_with_label embedF sentence label data si =
          some (r, st1, ev) →
        r.search_result.length ≤ 15) ∧
    (∀ (embedF : String → List ℚ) (sentence : String)
        (req_sentences : List String) (st st1 : Legacy.MainAppState)
        (r : MyResponse),
        Legacy.embed_search_insert_step embedF sentence req_sentences st =
          some (r, st1) →
        r.search_result.length ≤ 5) :=
  ⟨process_sentence_len, process_sentence_with_label_len, legacy_step_len⟩

/-- Six-entry index: all points coincide, payloads s1..s6. -/
def map6 : HnswMap :=
  HnswMap.build [pt0, pt0, pt0, pt0, pt0, pt0]
    ["s1", "s2", "s3", "s4", "s5", "s6"]

theorem searchAll_map6 :
    map6.searchAll pt0 =
      [("s1", 0), ("s2", 0), ("s3", 0), ("s4", 0), ("s5", 0), ("s6", 0)] := by
  simp only [map6, HnswMap.searchAll, HnswMap.build, List.zip_cons_cons,
    List.zip_nil_right, List.map_cons, List.map_nil, distanceSq_pt0, sortByDist,
    List.foldl_cons, List.foldl_nil, insertByDist, le_refl, if_true]

/-- Store state with the six-entry index and empty tables. -/
def st6 : ServerState :=
  { arc_mutex_map := map6
    arc_conn := { key_value_store := [], key_label_store := [] }
    hnsw_file := none }

/-- Response of the fresh query against the six-entry index: six results. -/
def r6 : MyResponse :=
  { search_result := ["s1", "s2", "s3", "s4", "s5", "s6"]
    search_distance := [0, 0, 0, 0, 0, 0]
    insertion := "inserted" }

/-- State after that run. -/
def st6r : ServerState :=
  { arc_mutex_map := map6.insert pt0 "q"
    arc_conn := { key_value_store := [("q", [qv0])], key_label_store := [] }
    hnsw_file := none }

theorem c4_run_eval :
    process_sentence (fun _ => qv0) "q" st6 true = some (r6, st6r, evMiss) := by
  rw [process_sentence_miss_eq (fun _ => qv0) "q" st6 rfl]
  show (search_closest_points map6 qv0 { sentences := ["q"], vectors := [qv0] }).bind
      _ = _
  rw [scp_nonempty map6 qv0 _ pt0 from_slice_qv0
    (by simp [map6, HnswMap.build])]
  rw [searchAll_map6, take15_six]
  simp [insert_if_needed, from_slice_qv0, r6, st6r, evMiss, st6]

theorem c4_handler_eval :
    embed_search_insert (fun _ => qv0) ("should_insert=1".toList)
      { sentences := ["q"] } st6 = some ([r6], st6r) := by
  have hsi : should_insert_query_params ("should_insert=1".toList) = true := by
    decide
  simp only [embed_search_insert, hsi, List.foldlM_cons, List.foldlM_nil,
    c4_run_eval, Option.map_some', Option.some_bind, Option.pure_def,
    List.nil_append]
  rfl

/-- C4 counterexample.  The unlabelled store endpoint /embed_search_insert
answers a fresh query against a six-entry index with SIX results — more
than the claimed K = 5 cap for the unlabelled endpoint (the store pipeline
caps at 15). -/
theorem c4_topk_counterexample :
    embed_search_insert (fun _ => qv0) ("should_insert=1".toList)
        { sentences := ["q"] } st6 = some ([r6], st6r) ∧
    r6.search_result.length = 6 ∧
    ¬ r6.search_result.length ≤ 5 := by
  refine ⟨c4_handler_eval, rfl, by norm_num [r6]⟩

/-- C4 witness: the amended caps applied to the concrete six-result store run
(≤ 15) and to the concrete legacy run (≤ 5). -/
theorem c4_topk_amended_witness :
    r6.search_result.length ≤ 15 ∧ rL.search_result.length ≤ 5 := by
  constructor
  · exact c4_topk_amended.1 (fun _ => qv0) "q" st6 true r6 st6r evMiss
      c4_run_eval
  · exact c4_topk_amended.2.2 (fun _ => qv0) "b" ["b"] stL stLr rL
      c1_legacy_run_eval

/-! Claim C3 — idempotence of repeated embed_search_insert on one sentence. -/

theorem mapM_one_qv0 :
    ([qv0] : List (List ℚ)).mapM Point.from_slice = some [pt0] := by
  simp [List.mapM, List.mapM.loop, from_slice_qv0]

/-- Response of the first C3 call (bootstrap + duplicate insert). -/
def rA1 : MyResponse :=
  { search_result := ["a"], search_distance := [0], insertion := "inserted" }

/-- State after the first C3 call. -/
def stA1 : ServerState :=
  { arc_mutex_map := mapAA
    arc_conn := { key_value_store := [("a", [qv0])], key_label_store := [] }
    hnsw_file := none }

/-- Response of the second C3 call: the sentence is found in sqlite, the
search now sees both copies. -/
def rA2 : MyResponse :=
  { search_result := ["a", "a"], search_distance := [0, 0]
    insertion := "already exists" }

/-- Event trace of a cache-hit run. -/
def evHit : List Event :=
  [Event.lockStore, Event.storeRead, Event.lockIndex, Event.unlockIndex,
   Event.unlockStore]

theorem c3_run1_eval :
    process_sentence (fun _ => qv0) "a" emptyServerState true =
      some (rA1, stA1, evMiss) := by
  rw [process_sentence_miss_eq (fun _ => qv0) "a" emptyServerState rfl]
  show (search_closest_points (HnswMap.build [] []) qv0
      { sentences := ["a"], vectors := [qv0] }).bind _ = _
  simp only [scp_empty (HnswMap.build [] []) qv0
    { sentences := ["a"], vectors := [qv0] } pt0 [pt0] from_slice_qv0 rfl
    mapM_one_qv0]
  show (((mapA.searchAll pt0).take 15, mapA) |> some).bind _ = _
  rw [searchAll_mapA, take15_one]
  simp [insert_if_needed, from_slice_qv0, rA1, stA1, evMiss, emptyServerState,
    mapAA]

theorem c3_run2_eval :
    process_sentence (fun _ => qv0) "a" stA1 true = some (rA2, stA1, evHit) := by
  have htf : try_find_in_sqlite stA1.arc_conn.key_value_store "a" =
      some { search_result := [], search_distance := qv0
             insertion := "found in sqlite" } := by
    simp [try_find_in_sqlite, stA1, List.lookup_cons, beq_self_eq_true]
  rw [process_sentence_hit_eq (fun _ => qv0) "a" stA1 true _ htf]
  show (search_closest_points mapAA qv0 { sentences := ["a"], vectors := [qv0] }).map
      _ = _
  rw [scp_nonempty mapAA qv0 _ pt0 from_slice_qv0 (by rw [mapAA_eq]; simp)]
  rw [searchAll_mapAA, take15_two]
  simp [rA2, stA1, evHit]

/-- C3 counterexample.  Two successive process_sentence calls on the same
fresh sentence with should_insert: the searchResult lists are NOT
identical (the first search runs before the insertion, the second sees
both copies of the bootstrapped-and-inserted entry), so the claimed
"identical searchResult" fails; note also that neither call reports
success — the store pipeline's insert status string is "inserted". -/
theorem c3_idempotence_counterexample :
    process_sentence (fun _ => qv0) "a" emptyServerState true =
        some (rA1, stA1, evMiss) ∧
    process_sentence (fun _ => qv0) "a" stA1 true = some (rA2, stA1, evHit) ∧
    rA1.search_result ≠ rA2.search_result ∧
    rA1.insertion ≠ "success" ∧ rA2.insertion ≠ "success" := by
  refine ⟨c3_run1_eval, c3_run2_eval, by decide, by decide, by decide⟩

/-- C3 (corrected).  Two successive runs on the same sentence with
should_insert yield at most one insertion = "inserted" (the code's insert
status; no call of the store pipeline ever reports "success"), and the
second run always answers "already exists"; but the searchResult lists
need not be identical, because the first run's search precedes its own
insertion while the second run observes it. -/
theorem c3_idempotence_amended (embedF : String → List ℚ) (sentence : String)
    (st st1 st2 : ServerState) (r1 r2 : MyResponse) (ev1 ev2 : List Event)
    (h1 : process_sentence embedF sentence st true = some (r1, st1, ev1))
    (h2 : process_sentence embedF sentence st1 true = some (r2, st2, ev2)) :
    r2.insertion = "already exists" ∧
    ¬ (r1.insertion = "inserted" ∧ r2.insertion = "inserted") := by
  have hsome : ∃ v, st1.arc_conn.key_value_store.lookup sentence = some v := by
    cases htf : try_find_in_sqlite st.arc_conn.key_value_store sentence with
    | some res =>
      rw [process_sentence_hit_eq embedF sentence st true res htf] at h1
      rw [Option.map_eq_some'] at h1
      obtain ⟨scp, _, heq⟩ := h1
      injection heq with h_r heq2
      injection heq2 with h_st1 h_ev
      subst h_st1
      rw [try_find_in_sqlite, Option.map_eq_some'] at htf
      obtain ⟨row, hrow, _⟩ := htf
      exact ⟨row, hrow⟩
    | none =>
      have hmiss := (try_find_eq_none_iff _ _).mp htf
      rw [process_sentence_miss_eq embedF sentence st hmiss] at h1
      rw [Option.bind_eq_some] at h1
      obtain ⟨scp, _, h1⟩ := h1
      rw [Option.map_eq_some'] at h1
      obtain ⟨map2, _, heq⟩ := h1
      injection heq with h_r heq2
      injection heq2 with h_st1 h_ev
      subst h_st1
      exact ⟨[embedF sentence], lookup_append_of_none _ _ _ hmiss⟩
  obtain ⟨v, hv⟩ := hsome
  have hres2 : try_find_in_sqlite st1.arc_conn.key_value_store sentence =
      some { search_result := [], search_distance := v.headD []
             insertion := "found in sqlite" } := by
    rw [try_find_in_sqlite, hv, Option.map_some']
  rw [process_sentence_hit_eq embedF sentence st1 true _ hres2] at h2
  rw [Option.map_eq_some'] at h2
  obtain ⟨scp2, _, heq2⟩ := h2
  injection heq2 with h_r2 _
  constructor
  · rw [← h_r2]
  · intro hcon
    rw [← h_r2] at hcon
    simp at hcon

/-- C3 witness: the amended theorem applied to the two concrete runs of the
counterexample scenario. -/
theorem c3_idempotence_amended_witness :
    rA2.insertion = "already exists" ∧
    ¬ (rA1.insertion = "inserted" ∧ rA2.insertion = "inserted") :=
  c3_idempotence_amended (fun _ => qv0) "a" emptyServerState stA1 stA1 rA1 rA2
    evMiss evHit c3_run1_eval c3_run2_eval

/-! Claim C9 — the store lock across the embedding call. -/

/-- A trace that opens with lockStore, storeRead, embedCall holds the store
lock at the embedding call, whatever follows. -/
theorem storeHeld_of_lock_read_embed (rest : List Event) :
    storeHeldAcrossEmbed
      (Event.lockStore :: Event.storeRead :: Event.embedCall :: rest) = true := by
  simp [storeHeldAcrossEmbed, storeHeldAcrossEmbedAux]

/-- C9 (corrected).  In both pipeline functions the store lock (the
connection guard) is taken at entry and dropped only when the function
returns; in every run that reaches the embedding provider (a cache miss),
the embedding call happens WHILE the store lock is held — it is not
released before the call. -/
theorem c9_lock_amended :
    (∀ (embedF : String → List ℚ) (sentence : String) (data : ServerState)
        (r : MyResponse) (st1 : ServerState) (ev : List Event),
        data.arc_conn.key_value_store.lookup sentence = none →
        process_sentence embedF sentence data true = some (r, st1, ev) →
        ev = evMiss ∧ storeHeldAcrossEmbed ev = true) ∧
    (∀ (embedF : String → List ℚ) (sentence label : String)
        (data : ServerState) (r : MyLabelledResponse) (st1 : ServerState)
        (ev : List Event),
        data.arc_conn.key_label_store.lookup sentence = none →
        data.arc_conn.key_value_store.lookup sentence = none →
        process_sentence_with_label embedF sentence label data true =
          some (r, st1, ev) →
        storeHeldAcrossEmbed ev = true) := by
  constructor
  · intro embedF sentence data r st1 ev hmiss hrun
    rw [process_sentence_miss_eq embedF sentence data hmiss] at hrun
    rw [Option.bind_eq_some] at hrun
    obtain ⟨scp, _, hrun⟩ := hrun
    rw [Option.map_eq_some'] at hrun
    obtain ⟨map2, _, heq⟩ := hrun
    injection heq with h_r heq2
    injection heq2 with h_st1 h_ev
    rw [← h_ev]
    exact ⟨rfl, by decide⟩
  · intro embedF sentence label data r st1 ev hlbl hkv hrun
    rw [process_sentence_with_label_miss_eq embedF sentence label data hlbl
      hkv] at hrun
    rw [Option.bind_eq_some] at hrun
    obtain ⟨scp, _, hrun⟩ := hrun
    rw [Option.map_eq_some'] at hrun
    obtain ⟨map2, _, heq⟩ := hrun
    injection heq with h_r heq2
    injection heq2 with h_st1 h_ev
    rw [← h_ev]
    simp only [List.cons_append]
    exact storeHeld_of_lock_read_embed _

/-- C9 counterexample.  A concrete cache-miss run of process_sentence: its
trace opens the store lock, reads, then calls the embedding provider with
no unlockStore in between — the store lock is held across the embedding
call, and is only released as the last event of the run, refuting the
claim that the pipeline releases it before calling the provider. -/
theorem c9_lock_counterexample :
    process_sentence (fun _ => qv0) "a" emptyServerState true =
        some (rA1, stA1, evMiss) ∧
    storeHeldAcrossEmbed evMiss = true ∧
    evMiss.head? = some Event.lockStore ∧
    evMiss.getLast? = some Event.unlockStore := by
  refine ⟨c3_run1_eval, by decide, rfl, by decide⟩

/-- The labelled miss run of the C9 witness: bootstrap, duplicate insert,
label fan-out finds the sentence's own freshly written label. -/
def rLab1 : MyLabelledResponse :=
  { search_result := ["a"], search_distance := [0], insertion := "inserted"
    labels := ["L"] }

/-- State after that labelled run. -/
def stLab1 : ServerState :=
  { arc_mutex_map := mapAA
    arc_conn := { key_value_store := [("a", [qv0])]
                  key_label_store := [("a", "L")] }
    hnsw_file := none }

/-- Its event trace: one storeRead per returned neighbor before the final
unlock. -/
def evLabMiss1 : List Event :=
  [Event.lockStore, Event.storeRead, Event.embedCall, Event.storeWrite,
   Event.storeWrite, Event.lockIndex, Event.unlockIndex, Event.lockIndex,
   Event.unlockIndex, Event.storeRead, Event.unlockStore]

theorem c9_label_run_eval :
    process_sentence_with_label (fun _ => qv0) "a" "L" emptyServerState true =
      some (rLab1, stLab1, evLabMiss1) := by
  rw [process_sentence_with_label_miss_eq (fun _ => qv0) "a" "L"
    emptyServerState rfl rfl]
  show (search_closest_points (HnswMap.build [] []) qv0
      { sentences := ["a"], vectors := [qv0] }).bind _ = _
  simp only [scp_empty (HnswMap.build [] []) qv0
    { sentences := ["a"], vectors := [qv0] } pt0 [pt0] from_slice_qv0 rfl
    mapM_one_qv0]
  show (((mapA.searchAll pt0).take 15, mapA) |> some).bind _ = _
  rw [searchAll_mapA, take15_one]
  simp only [Option.some_bind, insert_if_needed, from_slice_qv0,
    Option.map_some', List.foldl_cons, List.foldl_nil, List.map_cons,
    List.map_nil]
  norm_num [emptyServerState, rLab1, stLab1, evLabMiss1, mapAA,
    try_find_label_in_sqlite, List.lookup_cons, beq_self_eq_true,
    List.headD_cons]

/-- C9 witness: the amended theorem applied to the concrete miss runs of both
pipeline functions. -/
theorem c9_lock_amended_witness :
    (evMiss = evMiss ∧ storeHeldAcrossEmbed evMiss = true) ∧
    storeHeldAcrossEmbed evLabMiss1 = true := by
  constructor
  · exact c9_lock_amended.1 (fun _ => qv0) "a" emptyServerState rA1 stA1
      evMiss rfl c3_run1_eval
  · exact c9_lock_amended.2 (fun _ => qv0) "a" "L" emptyServerState rLab1
      stLab1 evLabMiss1 rfl rfl c9_label_run_eval

end BreakfastEmbed
